import Mathlib

/-!
Verification of the smart-bookmark-app repository.

Part 1 embeds the OAuth callback route handler (`GET /auth/callback`,
`src/unnamed/part_000`).  Part 2 embeds the browser-side `BookmarkClient`
controller (`src/unnamed/part_003`): its mount effect, `loadBookmarks`,
`handleAddBookmark`, `handleDeleteBookmark` and `handleSignOut`.

Remote services (the Supabase auth exchange, the bookmarks table and the
realtime channel) are modelled as explicit parameters: a function from the
request/query to the result the service would return.  Each controller
operation returns, next to the updated local state, the list of remote
actions it issued, so that claims about which calls are (or are not) made
can be stated directly.
-/

namespace SmartBookmark

/-! ### Part 1: the auth callback route handler (src/unnamed/part_000) -/

/-- A `NextResponse` as the route handler could produce it: either an HTTP
redirect to a URL or a rendered page body.  The source only ever constructs
redirects; the `page` constructor exists so that "never returns a body" is a
statement, not a typing accident of the model. -/
inductive NextResponse where
  | redirect (url : String)
  | page (body : String)
deriving DecidableEq, Repr

/-- The data of the incoming request that the handler reads: the URL origin
and the query string, the latter as an association list of parameters. -/
structure CallbackRequest where
  origin : String
  searchParams : List (String × String)
deriving DecidableEq, Repr

/-- `searchParams.get(name)`: the first value bound to `name`, if any. -/
def getParam (params : List (String × String)) (name : String) : Option String :=
  (params.find? (fun p => p.1 == name)).map (fun p => p.2)

/-- JavaScript truthiness of `searchParams.get(...)`: `null` and the empty
string are falsy, every other string is truthy.  The handler tests the code
with `if (code)`, so this is the exact guard of the source. -/
def jsTruthy : Option String → Bool
  | none => false
  | some s => s != ""

/-- Result of one run of the handler: the response it returned, plus the
list of codes it passed to `exchangeCodeForSession` (in order), so that
"exactly one exchange" and "no exchange" are statable. -/
structure GETResult where
  response : NextResponse
  exchangedCodes : List String
deriving DecidableEq, Repr

/-- The resolved `next` parameter: the `next` query value, or `"/"` when the
parameter is absent (`searchParams.get("next") ?? "/"`). -/
def resolvedNext (request : CallbackRequest) : String :=
  (getParam request.searchParams "next").getD "/"

/-- The route handler `GET` of `src/unnamed/part_000`.
`exchangeCodeForSession` is the provider call, returning `none` on success
and `some error` on failure (the source destructures `{ error }`).
The source reads `code` and `next` from the query, and when `code` is truthy
performs the exchange: on success it redirects to `origin ++ next`, otherwise
execution falls through to the final redirect to
`origin ++ "/auth/auth-code-error"`. -/
def GET (exchangeCodeForSession : String → Option String)
    (request : CallbackRequest) : GETResult :=
  let code := getParam request.searchParams "code"
  let next := (getParam request.searchParams "next").getD "/"
  if jsTruthy code then
    let c := code.getD ""
    match exchangeCodeForSession c with
    | none =>
        { response := NextResponse.redirect (request.origin ++ next)
          exchangedCodes := [c] }
    | some _ =>
        { response := NextResponse.redirect (request.origin ++ "/auth/auth-code-error")
          exchangedCodes := [c] }
  else
    { response := NextResponse.redirect (request.origin ++ "/auth/auth-code-error")
      exchangedCodes := [] }

/-! ### Part 2: the BookmarkClient controller (src/unnamed/part_003) -/

/-- The authenticated user as the controller uses it: `user.id` goes into the
subscription filter and the insert row, `user.email` is only displayed. -/
structure User where
  id : String
  email : String
deriving DecidableEq, Repr

/-- The `Bookmark` interface of the source. -/
structure Bookmark where
  id : Nat
  url : String
  title : String
  user_id : String
  created_at : Option String
deriving DecidableEq, Repr

/-- The controller's React state: the six `useState` hooks of the component. -/
structure ControllerState where
  user : Option User
  bookmarks : List Bookmark
  url : String
  title : String
  loading : Bool
  errorMsg : Option String
deriving DecidableEq, Repr

/-- The shape of a select issued against the bookmarks table: the selected
columns and the `order` clause. -/
structure BookmarkQuery where
  columns : String
  orderColumn : String
  orderAscending : Bool
deriving DecidableEq, Repr

/-- The row passed to `insert`. -/
structure InsertRow where
  url : String
  title : String
  user_id : String
deriving DecidableEq, Repr

/-- The description of a realtime subscription as built in the init effect:
channel name and the `postgres_changes` options (event, schema, table,
filter). -/
structure Subscription where
  channelName : String
  event : String
  schema : String
  table : String
  filter : String
deriving DecidableEq, Repr

/-- A notification delivered on the channel.  The registered handler of the
source takes no payload argument at all; the model still carries the event
type and rows so that independence from them is a theorem, not a typing
accident. -/
structure ChangeEvent where
  eventType : String
  newRow : Option Bookmark
  oldRow : Option Bookmark
deriving DecidableEq, Repr

/-- One remote call issued by the controller, recorded in order. -/
inductive Action where
  | select (q : BookmarkQuery)
  | insert (row : InsertRow)
  | deleteEq (column : String) (id : Nat)
  | signOutCall
  | subscribeChannel (sub : Subscription)
  | removeChannel (channelName : String)
deriving DecidableEq, Repr

/-- The remote backend as the controller observes it in one run: what
`auth.getUser` returns, what each data call would answer.  `insert` /
`deleteById` / `signOut` return `none` on success and `some message` on
failure, matching the `{ error }` results of the client library. -/
structure Backend where
  getUser : Option User
  select : BookmarkQuery → Except String (List Bookmark)
  insert : InsertRow → Option String
  deleteById : Nat → Option String
  signOut : Option String

/-- The query built by `loadBookmarks`:
`select("id, url, title, user_id, created_at").order("created_at", { ascending: false })`. -/
def loadQuery : BookmarkQuery :=
  { columns := "id, url, title, user_id, created_at"
    orderColumn := "created_at"
    orderAscending := false }

/-- `loadBookmarks`: clear the error message, run the select; on success
replace the list with the returned rows, on failure set the error message
from the backend error; either way clear the loading flag. -/
def loadBookmarks (b : Backend) (s : ControllerState) : ControllerState × List Action :=
  let s1 := { s with errorMsg := none }
  match b.select loadQuery with
  | Except.ok data =>
      ({ s1 with bookmarks := data, loading := false }, [Action.select loadQuery])
  | Except.error e =>
      ({ s1 with errorMsg := some ("Failed to load bookmarks: " ++ e), loading := false },
        [Action.select loadQuery])

/-- The subscription the init effect opens for user `u`:
channel `"bookmarks_changes"`, `postgres_changes` with `event: "*"`,
`schema: "public"`, `table: "bookmarks"`, `filter: user_id=eq.<u.id>`. -/
def subscriptionFor (u : User) : Subscription :=
  { channelName := "bookmarks_changes"
    event := "*"
    schema := "public"
    table := "bookmarks"
    filter := "user_id=eq." ++ u.id }

/-- What one run of the async `init` function produces (on the path where the
component is still mounted when `getUser` resolves): the state after it, the
remote actions issued, the notification handlers it registered on the channel
(closing over the backend, as `loadBookmarks` closes over `supabase`), and
the actions the closure it returns would perform if it were ever invoked. -/
structure InitResult where
  state : ControllerState
  actions : List Action
  handlers : List (ChangeEvent → ControllerState → ControllerState × List Action)
  innerCleanup : Option (List Action)

/-- The `init` function of the mount effect.  With no user it records the
null user and clears the loading flag.  With a user it stores the user, runs
`loadBookmarks`, opens the subscription whose handler is
`() => { loadBookmarks(); }` (the payload is not even bound), and returns a
closure that would call `supabase.removeChannel(channel)`. -/
def init (b : Backend) (s0 : ControllerState) : InitResult :=
  match b.getUser with
  | none =>
      { state := { s0 with user := none, loading := false }
        actions := []
        handlers := []
        innerCleanup := none }
  | some u =>
      let r := loadBookmarks b { s0 with user := some u }
      { state := r.1
        actions := r.2 ++ [Action.subscribeChannel (subscriptionFor u)]
        handlers := [fun _ st => loadBookmarks b st]
        innerCleanup := some [Action.removeChannel "bookmarks_changes"] }

/-- The mount effect as React sees it: its body calls `init()` and discards
the resulting promise, so the closure `init` returns (the `innerCleanup`
above) never reaches React; the function the effect body itself returns —
the one React will run on unmount — is `() => { mounted = false; }`. -/
structure MountEffectResult where
  state : ControllerState
  actions : List Action
  /-- Value of the `mounted` flag after React runs the effect's cleanup. -/
  cleanupMountedFlag : Bool
  /-- Remote actions performed by the cleanup React actually received. -/
  cleanupActions : List Action

/-- The `useEffect(..., [])` of the component, on the mounted path. -/
def mountEffect (b : Backend) (s0 : ControllerState) : MountEffectResult :=
  let r := init b s0
  { state := r.state
    actions := r.actions
    cleanupMountedFlag := false
    cleanupActions := [] }

/-- The row `handleAddBookmark` inserts: `{ url, title, user_id: user.id }`. -/
def insertRowOf (s : ControllerState) (u : User) : InsertRow :=
  { url := s.url, title := s.title, user_id := u.id }

/-- `handleAddBookmark`: `if (!url || !title || !user) return;` then clear the
error message and insert; on error set the error message (inputs untouched),
on success clear both inputs and call `loadBookmarks()` immediately. -/
def handleAddBookmark (b : Backend) (s : ControllerState) : ControllerState × List Action :=
  if s.url = "" ∨ s.title = "" ∨ s.user = none then (s, [])
  else
    match s.user with
    | none => (s, [])
    | some u =>
        let s1 := { s with errorMsg := none }
        let row := insertRowOf s u
        match b.insert row with
        | some e =>
            ({ s1 with errorMsg := some ("Error adding bookmark: " ++ e) },
              [Action.insert row])
        | none =>
            let r := loadBookmarks b { s1 with url := "", title := "" }
            (r.1, Action.insert row :: r.2)

/-- `handleDeleteBookmark`: run `delete().eq("id", id)`; on error set the
error message and stop; on success call `loadBookmarks()`. -/
def handleDeleteBookmark (b : Backend) (s : ControllerState) (id : Nat) :
    ControllerState × List Action :=
  match b.deleteById id with
  | some e =>
      ({ s with errorMsg := some ("Error deleting bookmark: " ++ e) },
        [Action.deleteEq "id" id])
  | none =>
      let r := loadBookmarks b s
      (r.1, Action.deleteEq "id" id :: r.2)

/-- `handleSignOut`: `await supabase.auth.signOut();` — the `{ error }`
result is not even destructured — then `setUser(null); setBookmarks([]);`
unconditionally. -/
def handleSignOut (b : Backend) (s : ControllerState) : ControllerState × List Action :=
  let _outcome := b.signOut
  ({ s with user := none, bookmarks := [] }, [Action.signOutCall])

/-! ### Concrete fixtures used to instantiate the theorems -/

/-- An exchange function that succeeds on every code. -/
def exchOk : String → Option String := fun _ => none

/-- An exchange function that fails on every code. -/
def exchFail : String → Option String := fun _ => some "invalid_grant"

/-- A concrete request with no `code` parameter. -/
def reqNoCode : CallbackRequest :=
  { origin := "http://app.example", searchParams := [("next", "/dashboard")] }

/-- A concrete request whose `code` parameter is the empty string. -/
def reqEmptyCode : CallbackRequest :=
  { origin := "http://app.example", searchParams := [("code", ""), ("next", "/home")] }

/-- A concrete request with a nonempty `code` and a `next` parameter. -/
def reqWithCode : CallbackRequest :=
  { origin := "http://app.example", searchParams := [("code", "abc"), ("next", "/home")] }

/-! ### Claims about the callback handler -/

/-- C1: every run of the callback handler completes with exactly one HTTP
redirect — to `origin ++ next` (resolved) or to
`origin ++ "/auth/auth-code-error"` — and never with a rendered body,
whatever the query parameters and whatever the exchange does. -/
theorem get_callback_always_one_redirect (exch : String → Option String)
    (req : CallbackRequest) :
    ((GET exch req).response = NextResponse.redirect (req.origin ++ resolvedNext req) ∨
      (GET exch req).response =
        NextResponse.redirect (req.origin ++ "/auth/auth-code-error")) ∧
    ∀ b, (GET exch req).response ≠ NextResponse.page b := by
  cases h : jsTruthy (getParam req.searchParams "code") with
  | false => simp [GET, resolvedNext, h]
  | true =>
      cases he : exch ((getParam req.searchParams "code").getD "") <;>
        simp [GET, resolvedNext, h, he]

/-- C2: when no `code` query parameter is present, no exchange is performed
and the handler redirects to the error page, regardless of the other
parameters. -/
theorem get_callback_no_code (exch : String → Option String) (req : CallbackRequest)
    (h : getParam req.searchParams "code" = none) :
    (GET exch req).exchangedCodes = [] ∧
    (GET exch req).response =
      NextResponse.redirect (req.origin ++ "/auth/auth-code-error") := by
  simp [GET, h, jsTruthy]

/-- Witness for C2 at a concrete request that carries only a `next`
parameter. -/
theorem get_callback_no_code_witness :
    getParam reqNoCode.searchParams "code" = none ∧
    ((GET exchOk reqNoCode).exchangedCodes = [] ∧
      (GET exchOk reqNoCode).response =
        NextResponse.redirect (reqNoCode.origin ++ "/auth/auth-code-error")) :=
  ⟨rfl, get_callback_no_code exchOk reqNoCode rfl⟩

/-- Counterexample to C3 as stated: the request `?code=` carries a `code`
parameter, yet the handler performs zero exchanges (never exactly one), even
with an exchange function that always succeeds, and redirects to the error
page rather than to the destination. -/
theorem get_callback_code_param_counterexample :
    getParam reqEmptyCode.searchParams "code" = some "" ∧
    (GET exchOk reqEmptyCode).exchangedCodes = [] ∧
    (GET exchOk reqEmptyCode).response =
      NextResponse.redirect "http://app.example/auth/auth-code-error" :=
  ⟨rfl, rfl, rfl⟩

/-- C3 (amended to nonempty codes): for every request carrying a nonempty
`code` parameter, exactly one exchange of that code is performed; if it
succeeds the handler redirects to `origin ++ next` (with `next` defaulting
to `"/"`), and if it fails — for any reason, replay included — it redirects
to the error page. -/
theorem get_callback_nonempty_code (exch : String → Option String)
    (req : CallbackRequest) (c : String)
    (h : getParam req.searchParams "code" = some c) (hc : c ≠ "") :
    (GET exch req).exchangedCodes = [c] ∧
    (exch c = none →
      (GET exch req).response =
        NextResponse.redirect (req.origin ++ resolvedNext req)) ∧
    (∀ e, exch c = some e →
      (GET exch req).response =
        NextResponse.redirect (req.origin ++ "/auth/auth-code-error")) := by
  have ht : jsTruthy (some c) = true := by
    simp [jsTruthy, hc]
  refine ⟨?_, ?_, ?_⟩
  · cases he : exch c <;> simp [GET, h, ht, he]
  · intro he
    simp [GET, resolvedNext, h, ht, he]
  · intro e he
    simp [GET, h, ht, he]

/-- Witness for the amended C3: a concrete request with `code=abc` and
`next=/home`, under a failing exchange. -/
theorem get_callback_nonempty_code_witness :
    getParam reqWithCode.searchParams "code" = some "abc" ∧
    "abc" ≠ "" ∧
    ((GET exchFail reqWithCode).exchangedCodes = ["abc"] ∧
      (exchFail "abc" = none →
        (GET exchFail reqWithCode).response =
          NextResponse.redirect (reqWithCode.origin ++ resolvedNext reqWithCode)) ∧
      (∀ e, exchFail "abc" = some e →
        (GET exchFail reqWithCode).response =
          NextResponse.redirect (reqWithCode.origin ++ "/auth/auth-code-error"))) :=
  ⟨rfl, by decide, get_callback_nonempty_code exchFail reqWithCode "abc" rfl (by decide)⟩

/-- C10: a `code` parameter equal to the empty string behaves exactly like an
absent code: no exchange, error-page redirect. -/
theorem get_callback_empty_code (exch : String → Option String)
    (req : CallbackRequest) (h : getParam req.searchParams "code" = some "") :
    (GET exch req).exchangedCodes = [] ∧
    (GET exch req).response =
      NextResponse.redirect (req.origin ++ "/auth/auth-code-error") := by
  simp [GET, h, jsTruthy]

/-- Witness for C10 at the concrete request `?code=&next=/home`, under an
exchange that would succeed if it were ever called. -/
theorem get_callback_empty_code_witness :
    getParam reqEmptyCode.searchParams "code" = some "" ∧
    ((GET exchOk reqEmptyCode).exchangedCodes = [] ∧
      (GET exchOk reqEmptyCode).response =
        NextResponse.redirect (reqEmptyCode.origin ++ "/auth/auth-code-error")) :=
  ⟨rfl, get_callback_empty_code exchOk reqEmptyCode rfl⟩

/-- A concrete signed-in user. -/
def sampleUser : User := { id := "user-1", email := "user-1@example.com" }

/-- A concrete stored bookmark owned by `sampleUser`. -/
def sampleBookmark : Bookmark :=
  { id := 7, url := "https://example.org", title := "Example"
    user_id := "user-1", created_at := some "2026-01-02T03:04:05Z" }

/-- The initial hook state of the component: no user, empty list, empty
inputs, loading, no error. -/
def emptyState : ControllerState :=
  { user := none, bookmarks := [], url := "", title := "", loading := true, errorMsg := none }

/-- A signed-in state with one bookmark displayed and both inputs filled. -/
def activeState : ControllerState :=
  { user := some sampleUser, bookmarks := [sampleBookmark]
    url := "https://a.example", title := "A", loading := false, errorMsg := none }

/-- A backend on which every remote call succeeds. -/
def okBackend : Backend :=
  { getUser := some sampleUser
    select := fun _ => Except.ok [sampleBookmark]
    insert := fun _ => none
    deleteById := fun _ => none
    signOut := none }

/-- A backend on which every data mutation and the sign-out call fail. -/
def failBackend : Backend :=
  { getUser := some sampleUser
    select := fun _ => Except.ok [sampleBookmark]
    insert := fun _ => some "permission denied"
    deleteById := fun _ => some "permission denied"
    signOut := some "network error" }

/-! ### Claims about the BookmarkClient controller -/

/-- C4: the spec requires the subscription to be torn down on deactivation,
and the claim states `removeChannel` is invoked then; but in the code the
closure that would call `removeChannel` is returned from the async `init`
(becoming the discarded promise's value), while the cleanup the effect hands
to React only clears the `mounted` flag.  So after an authenticated mount
has opened the subscription, the unmount cleanup performs no remote action
at all — in particular no channel removal — even though the never-delivered
inner closure would have performed exactly that. -/
theorem unmount_cleanup_never_removes_channel (b : Backend) (s0 : ControllerState)
    (u : User) (h : b.getUser = some u) :
    Action.subscribeChannel (subscriptionFor u) ∈ (mountEffect b s0).actions ∧
    (mountEffect b s0).cleanupActions = [] ∧
    (init b s0).innerCleanup = some [Action.removeChannel "bookmarks_changes"] := by
  cases hs : b.select loadQuery <;>
    simp [mountEffect, init, h, loadBookmarks, hs]

/-- Witness for C4: the concrete authenticated mount on `okBackend`. -/
theorem unmount_cleanup_never_removes_channel_witness :
    okBackend.getUser = some sampleUser ∧
    (Action.subscribeChannel (subscriptionFor sampleUser) ∈
        (mountEffect okBackend emptyState).actions ∧
      (mountEffect okBackend emptyState).cleanupActions = [] ∧
      (init okBackend emptyState).innerCleanup =
        some [Action.removeChannel "bookmarks_changes"]) :=
  ⟨rfl, unmount_cleanup_never_removes_channel okBackend emptyState sampleUser rfl⟩

/-- C5: on initialization with a present session the controller issues the
bookmark fetch ordered by `created_at` descending and opens exactly one
subscription — `event "*"`, filter `user_id=eq.<uid>` — whose single
registered handler re-runs the full `loadBookmarks` fetch for every
notification, whatever its event type or payload, merging nothing. -/
theorem init_fetch_and_single_subscription (b : Backend) (s0 : ControllerState)
    (u : User) (h : b.getUser = some u) :
    (init b s0).actions =
      [Action.select loadQuery, Action.subscribeChannel (subscriptionFor u)] ∧
    loadQuery.orderColumn = "created_at" ∧
    loadQuery.orderAscending = false ∧
    (subscriptionFor u).event = "*" ∧
    (subscriptionFor u).filter = "user_id=eq." ++ u.id ∧
    (init b s0).state = (loadBookmarks b { s0 with user := some u }).1 ∧
    (init b s0).handlers.length = 1 ∧
    ∀ hd ∈ (init b s0).handlers, ∀ ev st, hd ev st = loadBookmarks b st := by
  refine ⟨?_, rfl, rfl, rfl, rfl, ?_, ?_, ?_⟩
  · cases hs : b.select loadQuery <;>
      simp [init, h, loadBookmarks, hs]
  · simp [init, h]
  · simp [init, h]
  · intro hd hmem ev st
    simp [init, h] at hmem
    rw [hmem]

/-- Witness for C5: initialization of `okBackend` from the initial state. -/
theorem init_fetch_and_single_subscription_witness :
    okBackend.getUser = some sampleUser ∧
    ((init okBackend emptyState).actions =
        [Action.select loadQuery, Action.subscribeChannel (subscriptionFor sampleUser)] ∧
      (init okBackend emptyState).state =
        (loadBookmarks okBackend { emptyState with user := some sampleUser }).1 ∧
      (init okBackend emptyState).handlers.length = 1) := by
  obtain ⟨h1, _, _, _, _, h6, h7, _⟩ :=
    init_fetch_and_single_subscription okBackend emptyState sampleUser rfl
  exact ⟨rfl, h1, h6, h7⟩

/-- C6: when a create-bookmark invocation passes the guard, a successful
insert clears both inputs and immediately issues the refetch in the same
action sequence, and a failed insert leaves both inputs (and the list) as
submitted, sets the error message from the backend error, and issues no
second insert — the action list holds exactly the one insert. -/
theorem addBookmark_success_clears_failure_keeps (b : Backend) (s : ControllerState)
    (u : User) (hu : s.user = some u) (hurl : s.url ≠ "") (htitle : s.title ≠ "") :
    (b.insert (insertRowOf s u) = none →
      ((handleAddBookmark b s).1.url = "" ∧
        (handleAddBookmark b s).1.title = "" ∧
        (handleAddBookmark b s).2 =
          [Action.insert (insertRowOf s u), Action.select loadQuery])) ∧
    (∀ e, b.insert (insertRowOf s u) = some e →
      ((handleAddBookmark b s).1.url = s.url ∧
        (handleAddBookmark b s).1.title = s.title ∧
        (handleAddBookmark b s).1.bookmarks = s.bookmarks ∧
        (handleAddBookmark b s).1.errorMsg = some ("Error adding bookmark: " ++ e) ∧
        (handleAddBookmark b s).2 = [Action.insert (insertRowOf s u)])) := by
  have hcond : ¬(s.url = "" ∨ s.title = "" ∨ s.user = none) := by
    simp [hurl, htitle, hu]
  constructor
  · intro hins
    cases hs : b.select loadQuery <;>
      simp [handleAddBookmark, hcond, hu, hurl, htitle, hins, loadBookmarks, hs]
  · intro e hins
    simp [handleAddBookmark, hcond, hu, hurl, htitle, hins]

/-- Witness for C6: the filled-in state `activeState`, applied once on the
all-success backend (where the success branch fires via `rfl`). -/
theorem addBookmark_success_clears_failure_keeps_witness :
    activeState.user = some sampleUser ∧ activeState.url ≠ "" ∧ activeState.title ≠ "" ∧
    ((handleAddBookmark okBackend activeState).1.url = "" ∧
      (handleAddBookmark okBackend activeState).1.title = "" ∧
      (handleAddBookmark okBackend activeState).2 =
        [Action.insert (insertRowOf activeState sampleUser), Action.select loadQuery]) :=
  ⟨rfl, by decide, by decide,
    (addBookmark_success_clears_failure_keeps okBackend activeState sampleUser rfl
        (by decide) (by decide)).1 rfl⟩

/-- C7: a create-bookmark invocation with an empty URL, an empty title, or
no current user issues no remote call and leaves the whole controller state
exactly unchanged. -/
theorem addBookmark_guard_no_call (b : Backend) (s : ControllerState)
    (h : s.url = "" ∨ s.title = "" ∨ s.user = none) :
    handleAddBookmark b s = (s, []) := by
  simp [handleAddBookmark, h]

/-- Witness for C7: the initial state has an empty URL, so the guard fires
even on a backend where the insert would succeed. -/
theorem addBookmark_guard_no_call_witness :
    (emptyState.url = "" ∨ emptyState.title = "" ∨ emptyState.user = none) ∧
    handleAddBookmark okBackend emptyState = (emptyState, []) :=
  ⟨Or.inl rfl, addBookmark_guard_no_call okBackend emptyState (Or.inl rfl)⟩

/-- C8: when the remote delete fails, the error message is set from the
backend error, the displayed list is untouched, and the only action issued
is the delete itself — no refetch. -/
theorem deleteBookmark_failure_leaves_list (b : Backend) (s : ControllerState)
    (id : Nat) (e : String) (h : b.deleteById id = some e) :
    (handleDeleteBookmark b s id).1 =
      { s with errorMsg := some ("Error deleting bookmark: " ++ e) } ∧
    (handleDeleteBookmark b s id).1.bookmarks = s.bookmarks ∧
    (handleDeleteBookmark b s id).2 = [Action.deleteEq "id" id] := by
  simp [handleDeleteBookmark, h]

/-- Witness for C8: deleting bookmark 7 on the failing backend. -/
theorem deleteBookmark_failure_leaves_list_witness :
    failBackend.deleteById 7 = some "permission denied" ∧
    ((handleDeleteBookmark failBackend activeState 7).1 =
        { activeState with
            errorMsg := some ("Error deleting bookmark: " ++ "permission denied") } ∧
      (handleDeleteBookmark failBackend activeState 7).1.bookmarks =
        activeState.bookmarks ∧
      (handleDeleteBookmark failBackend activeState 7).2 = [Action.deleteEq "id" 7]) :=
  ⟨rfl, deleteBookmark_failure_leaves_list failBackend activeState 7 "permission denied" rfl⟩

/-- C9: every sign-out invocation issues the session-invalidation call and
then — whatever that call returned, success or failure, since `b.signOut` is
arbitrary and its result is ignored — clears the local user to `none` and
the local bookmark list to `[]`. -/
theorem signOut_clears_unconditionally (b : Backend) (s : ControllerState) :
    (handleSignOut b s).1.user = none ∧
    (handleSignOut b s).1.bookmarks = [] ∧
    (handleSignOut b s).2 = [Action.signOutCall] :=
  ⟨rfl, rfl, rfl⟩

end SmartBookmark
